import Mathlib

/-!
Verification development for the steelcut repository (an SSH fleet tool).

The definitions below are a shallow embedding of the command-execution
engine and the fleet dispatcher of the repository:

* `src/steelcut/commandmanager/commandmanager.go` — `UnixCommandManager`
  (`RunLocal`, `RunRemote`, `Run`, `checkSudoErrors`, `getSSHConfig`,
  `getExitCode`);
* `src/steelcut/host.go` — the legacy `UnixHost` execution path
  (`runLocalCommand`, `runRemoteCommand`, `runCommandInternal`,
  `getSSHConfig`);
* `src/steelcut/hostgroup.go` — both `HostGroup` iterations
  (`RunCommandOnAll` of package steelcut, `Run` of package hostgroup);
* `src/unnamed/part_026` — `FileSSHKeyManager.ReadPrivateKeys`;
* `src/main.go` — `processHosts` (semaphore-bounded fan-out).

External effects (child processes, SSH dials, sessions, the filesystem)
are passed in as explicit oracle values, and the functions additionally
return the list of effect events they perform, so that properties of the
form "no dial is attempted before ..." can be stated.  Go `error` values
are modelled by the inductive type `GoError`; a Go function returning
`(T, error)` becomes a Lean function returning `T × Option GoError`.
-/

namespace Steelcut

/-- Models a Go `error` value.  `execExit` is a `*exec.ExitError` carrying a
`syscall.WaitStatus` exit status (produced by `os/exec` for a local child
process that ran and exited non-zero); `sshExit` is a remote
`*ssh.ExitError` from `golang.org/x/crypto/ssh` carrying the remote exit
status (the ssh library never produces `*exec.ExitError` values, so the
two constructors are distinct); `ctxDeadlineExceeded` is `context.Err()`
after the deadline; `msg` is any other error (`errors.New`, wrapped I/O
errors, ...). -/
inductive GoError where
  | execExit (status : Int)
  | sshExit (status : Int)
  | ctxDeadlineExceeded
  | msg (s : String)
deriving DecidableEq, Repr

/-- Models `err.Error()` for the errors of `GoError`. -/
def goErrorMessage : GoError → String
  | .execExit status => "exit status " ++ toString status
  | .sshExit status => "Process exited with status " ++ toString status
  | .ctxDeadlineExceeded => "context deadline exceeded"
  | .msg s => s

/-- Does the character list start with the given pattern. -/
def charsStartWith : List Char → List Char → Bool
  | _, [] => true
  | [], _ :: _ => false
  | a :: as, b :: bs => a == b && charsStartWith as bs

/-- Does the character list contain the pattern as a contiguous run. -/
def charsContain : List Char → List Char → Bool
  | [], pat => charsStartWith [] pat
  | s@(_ :: rest), pat => charsStartWith s pat || charsContain rest pat

/-- Models Go `strings.Contains(s, substr)`. -/
def stringsContains (s substr : String) : Bool :=
  charsContain s.toList substr.toList

/-- Models Go `strings.HasSuffix(s, pat)`. -/
def stringsHasSuffix (s pat : String) : Bool :=
  charsStartWith s.toList.reverse pat.toList.reverse

/-- Models `getExitCode` of `commandmanager.go` (lines 267-275): the exit
code is recovered by a type assertion to `*exec.ExitError`; any other
error (including a remote `*ssh.ExitError`) and the nil error yield 0. -/
def getExitCode : Option GoError → Int
  | some (.execExit status) => status
  | _ => 0

/-- Models `common.Credentials` as embedded in `UnixCommandManager`.  The
declaration of the `common` package is not in the source tree; the field
set follows its uses in `commandmanager.go` (`User`, `Password`,
`KeyPassphrase`, `SudoPassword`) and the credential bundle of the spec. -/
structure Credentials where
  User : String
  Password : String
  KeyPassphrase : String
  SudoPassword : String
deriving DecidableEq, Repr

/-- Models `commandmanager.CommandConfig`.  The struct declaration is not
in the source tree; the field set follows its uses in `commandmanager.go`
(`Command`, `Args`, `Sudo`, `Env`) and the Command Request of the spec. -/
structure CommandConfig where
  Command : String
  Args : List String
  Sudo : Bool
  Env : List String
deriving DecidableEq, Repr

/-- Models `commandmanager.CommandResult` with the fields used by
`commandmanager.go` (`Command`, `STDOUT`, `STDERR`, `ExitCode`,
`Duration`, `Timestamp`).  Durations and timestamps are abstract
integers. -/
structure CommandResult where
  Command : String
  STDOUT : String
  STDERR : String
  ExitCode : Int
  Duration : Int
  Timestamp : Int
deriving DecidableEq, Repr

/-- The zero value `CommandResult{}` returned by Go on error paths. -/
def emptyResult : CommandResult :=
  { Command := "", STDOUT := "", STDERR := "", ExitCode := 0,
    Duration := 0, Timestamp := 0 }

/-- Models `UnixCommandManager.checkSudoErrors` (commandmanager.go lines
51-74): the seven sudo failure signatures are matched, in order, against
`result.STDERR` only. -/
def checkSudoErrors (result : CommandResult) : Option GoError :=
  if stringsContains result.STDERR "incorrect password" then
    some (.msg "sudo: incorrect password provided")
  else if stringsContains result.STDERR "is not in the sudoers file" then
    some (.msg "sudo: user is not in the sudoers file")
  else if stringsContains result.STDERR "timed out reading password" then
    some (.msg "sudo: password prompt timed out")
  else if stringsContains result.STDERR "no tty present and no askpass program specified" then
    some (.msg "sudo: cannot prompt for password due to missing terminal or askpass program")
  else if stringsContains result.STDERR "unknown user" then
    some (.msg "sudo: specified user is unknown")
  else if stringsContains result.STDERR "unable to execute" then
    some (.msg "sudo: unable to execute the specified command")
  else if stringsContains result.STDERR "Permission denied" then
    some (.msg "permission denied: consider using sudo for this command")
  else
    none

/-- A child process as actually spawned: its argument vector and the data
supplied on its standard input. -/
structure SpawnedProcess where
  argv : List String
  stdinData : String
deriving DecidableEq, Repr

/-- Observable side effects of one execution: spawning a local child
process, attempting an SSH dial (with the dial timeout used), opening a
session, and starting a command on a session. -/
inductive Event where
  | spawn (proc : SpawnedProcess)
  | dialAttempt (addr : String) (timeout : Int)
  | newSession
  | sessionStart (cmdStr : String) (stdinData : String)
deriving DecidableEq, Repr

/-- Models `commandmanager.UnixCommandManager`: a hostname, whether the
`SSHClient` field is non-nil, and the embedded credentials. -/
structure UnixCommandManager where
  Hostname : String
  sshClientPresent : Bool
  credentials : Credentials
deriving DecidableEq, Repr

/-- Models `UnixCommandManager.isLocal` (commandmanager.go lines
263-265). -/
def UnixCommandManager.isLocal (u : UnixCommandManager) : Bool :=
  u.Hostname == "localhost" || u.Hostname == "127.0.0.1"

/-- Outcome of a spawned local child process: the separately captured
stdout and stderr, the error from `cmd.Run()` and the elapsed wall-clock
time.  It is an oracle: the child is outside the embedded program. -/
structure CMLocalOutcome where
  stdout : String
  stderr : String
  err : Option GoError
  duration : Int

/-- The process `RunLocal` spawns (commandmanager.go lines 79-84): for
`Sudo` the command is re-invoked under `sudo -S --` with the sudo
password plus newline on stdin; otherwise the command and args are run
directly. -/
def cmLocalSpawn (u : UnixCommandManager) (config : CommandConfig) : SpawnedProcess :=
  if config.Sudo then
    { argv := ["sudo", "-S", "--", config.Command] ++ config.Args,
      stdinData := u.credentials.SudoPassword ++ "\n" }
  else
    { argv := config.Command :: config.Args, stdinData := "" }

/-- Models `UnixCommandManager.RunLocal` (commandmanager.go lines 76-114).
`exec` is the oracle giving the outcome of the spawned process; `start`
models `time.Now()`.  The result records the captured output and
`getExitCode` of the run error; a sudo signature match on the result is
returned in place of the run error. -/
def RunLocal (u : UnixCommandManager) (exec : SpawnedProcess → CMLocalOutcome)
    (start : Int) (config : CommandConfig) :
    (CommandResult × Option GoError) × List Event :=
  let proc := cmLocalSpawn u config
  let o := exec proc
  let result : CommandResult :=
    { Command := config.Command, STDOUT := o.stdout, STDERR := o.stderr,
      ExitCode := getExitCode o.err, Duration := o.duration, Timestamp := start }
  match checkSudoErrors result with
  | some sudoErr => ((result, some sudoErr), [Event.spawn proc])
  | none => ((result, o.err), [Event.spawn proc])

/-- An abstract SSH signer (`ssh.Signer` is an interface; only identity
matters to the embedding). -/
structure Signer where
  id : Nat
deriving DecidableEq, Repr

/-- Result of an `SSHKeyManager.ReadPrivateKeys` call, used as an oracle
by the auth resolvers. -/
abbrev KeysResult := Except GoError (List Signer)

/-- An `ssh.AuthMethod` as built by the two `getSSHConfig` iterations:
password auth, public-key auth over a signer list, or the
keyboard-interactive method whose challenge handler is
`handleKeyboardInteractive`. -/
inductive AuthMethod where
  | password (secret : String)
  | publicKeys (signers : List Signer)
  | keyboardInteractive
deriving DecidableEq, Repr

/-- Is the auth method the keyboard-interactive one. -/
def AuthMethod.isKeyboardInteractive : AuthMethod → Bool
  | .keyboardInteractive => true
  | _ => false

/-- Models the `handleKeyboardInteractive` closure of
`UnixCommandManager.getSSHConfig` (commandmanager.go lines 119-126): it
returns `make([]string, len(questions))`, i.e. one empty response per
server challenge. -/
def handleKeyboardInteractive (_user _instruction : String)
    (questions : List String) (_echos : List Bool) : List String :=
  List.replicate questions.length ""

/-- The relevant fields of `ssh.ClientConfig` (the host-key callback is
`ssh.InsecureIgnoreHostKey()` in both iterations and carries no data). -/
structure SSHClientConfig where
  User : String
  Auth : List AuthMethod
deriving DecidableEq, Repr

/-- Models `UnixCommandManager.getSSHConfig` (commandmanager.go lines
116-158).  `fileKeys` and `agentKeys` are the oracles for
`FileSSHKeyManager.ReadPrivateKeys` and `AgentSSHKeyManager.ReadPrivateKeys`
on this call.  Password auth is chosen exactly when a password is
configured, otherwise public-key auth with signers from the file manager
(when a key passphrase is configured) or the agent; the
keyboard-interactive method is appended in every successful case. -/
def cmGetSSHConfig (c : UnixCommandManager) (fileKeys agentKeys : KeysResult) :
    Except GoError SSHClientConfig :=
  if c.credentials.Password ≠ "" then
    .ok { User := c.credentials.User,
          Auth := [.password c.credentials.Password, .keyboardInteractive] }
  else
    let keysResult := if c.credentials.KeyPassphrase ≠ "" then fileKeys else agentKeys
    match keysResult with
    | .error e => .error e
    | .ok keys =>
        .ok { User := c.credentials.User,
              Auth := [.publicKeys keys, .keyboardInteractive] }

/-- `15 * time.Minute` in abstract time units (nanoseconds), the default
dial timeout of `RunRemote` and the fixed timeout of the legacy
`UnixHost.runRemoteCommand`. -/
def fifteenMinutes : Int := 15 * 60 * 1000000000

/-- The dial timeout computed by `UnixCommandManager.RunRemote`
(commandmanager.go lines 176-181): `time.Until(deadline)` when the
context has a deadline, else 15 minutes.  Times are abstract integer
instants; `now` models the current time, so the remaining time is
`d - now` and is negative for a deadline already in the past. -/
def dialTimeoutOf (deadline : Option Int) (now : Int) : Int :=
  match deadline with
  | some d => d - now
  | none => fifteenMinutes

/-- The command string `RunRemote` executes on the session
(commandmanager.go lines 195-206): command plus space-joined args, with
the `sudo -S --` wrapper prepended when `Sudo` is set and the joined
environment overrides prepended when any are given. -/
def cmRemoteCmdStr (_u : UnixCommandManager) (config : CommandConfig) : String :=
  let cmdStr := config.Command ++ " " ++ String.intercalate " " config.Args
  let cmdStr := if config.Sudo then "sudo -S -- " ++ cmdStr else cmdStr
  if config.Env.length > 0 then
    String.intercalate " " config.Env ++ " " ++ cmdStr
  else
    cmdStr

/-- The data `RunRemote` streams into the session's stdin
(commandmanager.go line 199): the sudo password plus newline when `Sudo`
is set, nothing otherwise. -/
def cmRemoteStdin (u : UnixCommandManager) (config : CommandConfig) : String :=
  if config.Sudo then u.credentials.SudoPassword ++ "\n" else ""

/-- Oracle for one `RunRemote` call: the dial error (none = a non-nil
client was returned), the session-creation error, the outcome of
`session.Run` in the background goroutine (captured stdout, stderr and
its error), the elapsed time, and whether `ctx.Done()` wins the select
against command completion. -/
structure RemoteEnv where
  dial : Option GoError
  newSession : Option GoError
  runStdout : String
  runStderr : String
  runErr : Option GoError
  elapsed : Int
  ctxTimedOut : Bool

/-- Models `UnixCommandManager.RunRemote` (commandmanager.go lines
160-251).  The returned event list records the dial attempt (with the
computed timeout), session creation and command start, in order.  Note
that the background goroutine sends only the `CommandResult` on the
channel: the error of `session.Run` feeds `getExitCode` but is not
itself returned; after a sudo-signature check the completed path returns
a nil error. -/
def RunRemote (u : UnixCommandManager) (env : RemoteEnv)
    (fileKeys agentKeys : KeysResult) (deadline : Option Int) (now : Int)
    (config : CommandConfig) :
    (CommandResult × Option GoError) × List Event :=
  if u.sshClientPresent = false then
    ((emptyResult, some (.msg "SSHClient is not initialized")), [])
  else
    match cmGetSSHConfig u fileKeys agentKeys with
    | .error e => ((emptyResult, some e), [])
    | .ok _sshConfig =>
      let dialTimeout := dialTimeoutOf deadline now
      let ev1 := [Event.dialAttempt (u.Hostname ++ ":22") dialTimeout]
      match env.dial with
      | some e => ((emptyResult, some e), ev1)
      | none =>
        let ev2 := ev1 ++ [Event.newSession]
        match env.newSession with
        | some e => ((emptyResult, some e), ev2)
        | none =>
          let cmdStr := cmRemoteCmdStr u config
          let ev3 := ev2 ++ [Event.sessionStart cmdStr (cmRemoteStdin u config)]
          if env.ctxTimedOut then
            ((emptyResult, some .ctxDeadlineExceeded), ev3)
          else
            let result : CommandResult :=
              { Command := cmdStr, STDOUT := env.runStdout, STDERR := env.runStderr,
                ExitCode := getExitCode env.runErr, Duration := env.elapsed,
                Timestamp := now }
            match checkSudoErrors result with
            | some sudoErr => ((result, some sudoErr), ev3)
            | none => ((result, none), ev3)

/-- Models `UnixCommandManager.Run` (commandmanager.go lines 253-261):
the single local-vs-remote branch point. -/
def Run (u : UnixCommandManager) (exec : SpawnedProcess → CMLocalOutcome)
    (env : RemoteEnv) (fileKeys agentKeys : KeysResult)
    (deadline : Option Int) (now : Int) (config : CommandConfig) :
    (CommandResult × Option GoError) × List Event :=
  if u.isLocal then
    RunLocal u exec now config
  else
    RunRemote u env fileKeys agentKeys deadline now config

/-- Models the credential and client fields of the legacy
`steelcut.UnixHost` (host.go / unix_host.go): the host string, the
credential fields set by the host options, and whether the `SSHClient`
field is non-nil. -/
structure UnixHost where
  HostString : String
  User : String
  Password : String
  KeyPassphrase : String
  SudoPassword : String
  sshClientPresent : Bool
deriving DecidableEq, Repr

/-- Models `UnixHost.Hostname()`: it returns the `HostString` field. -/
def UnixHost.Hostname (h : UnixHost) : String := h.HostString

/-- Models `UnixHost.isLocal` (host.go lines 430-432). -/
def UnixHost.isLocal (h : UnixHost) : Bool :=
  h.Hostname == "localhost" || h.Hostname == "127.0.0.1"

/-- Models the legacy `UnixHost.getSSHConfig` (host.go lines 547-577).
Unlike the command-manager iteration, it registers exactly one auth
method — password or public-key — and no keyboard-interactive method. -/
def hostGetSSHConfig (h : UnixHost) (fileKeys agentKeys : KeysResult) :
    Except GoError SSHClientConfig :=
  if h.Password ≠ "" then
    .ok { User := h.User, Auth := [.password h.Password] }
  else
    let keyManagerResult := if h.KeyPassphrase ≠ "" then fileKeys else agentKeys
    match keyManagerResult with
    | .error e => .error e
    | .ok keys => .ok { User := h.User, Auth := [.publicKeys keys] }

/-- Outcome of a child process spawned by the legacy local path: the
captured output (`CombinedOutput` on the sudo branch, `Output` i.e.
stdout only on the plain branch) and the error. -/
structure LocalOutcome where
  output : String
  err : Option GoError

/-- Models `UnixHost.runLocalCommand` (host.go lines 434-469).  With
`useSudo` and an empty sudo password the configuration error is returned
before anything is spawned; otherwise the command runs under
`sudo -S bash -c` with the password on stdin and the combined output is
pattern-matched for sudo failures before the run error is consulted. -/
def runLocalCommand (_h : UnixHost) (exec : SpawnedProcess → LocalOutcome)
    (cmd : String) (useSudo : Bool) (sudoPassword : String) :
    (String × Option GoError) × List Event :=
  if useSudo then
    if sudoPassword = "" then
      (("", some (.msg "sudo: password is required but not provided")), [])
    else
      let proc : SpawnedProcess :=
        { argv := ["sudo", "-S", "bash", "-c", cmd], stdinData := sudoPassword ++ "\n" }
      let o := exec proc
      let ev := [Event.spawn proc]
      if stringsContains o.output "incorrect password" then
        (("", some (.msg "sudo: incorrect password provided")), ev)
      else if stringsContains o.output "is not in the sudoers file" then
        (("", some (.msg "sudo: user is not in the sudoers file")), ev)
      else
        match o.err with
        | some e => (("", some e), ev)
        | none => ((o.output, none), ev)
  else
    let proc : SpawnedProcess := { argv := ["bash", "-c", cmd], stdinData := "" }
    let o := exec proc
    let ev := [Event.spawn proc]
    match o.err with
    | some e => (("", some e), ev)
    | none => ((o.output, none), ev)

/-- Oracle for one legacy `runRemoteCommand` call: dial error, session
error, the combined output and error of `session.CombinedOutput` in the
background goroutine, and whether `time.After(timeout)` wins the
select. -/
structure HostRemoteEnv where
  dial : Option GoError
  newSession : Option GoError
  combinedOutput : String
  runErr : Option GoError
  timedOut : Bool

/-- The tail of `UnixHost.runRemoteCommand` after the session is set up
(host.go lines 503-544): run the command in a goroutine and race it
against the fixed timeout; on completion, a `*exec.ExitError` is
reformatted with its status and the output, other errors are returned
as-is, and an error-free completion is pattern-matched for the two sudo
signatures on the combined output. -/
def hostRemoteRun (env : HostRemoteEnv) (cmd stdinData : String)
    (ev : List Event) : (String × Option GoError) × List Event :=
  let ev := ev ++ [Event.sessionStart cmd stdinData]
  if env.timedOut then
    (("", some (.msg "command timed out")), ev)
  else
    let outputStr := env.combinedOutput
    match env.runErr with
    | some (.execExit status) =>
        ((outputStr,
          some (.msg ("Command \u0027" ++ cmd ++ "\u0027 over SSH failed with status "
            ++ toString status ++ ". Output: " ++ outputStr))), ev)
    | some e => ((outputStr, some e), ev)
    | none =>
      if stringsContains outputStr "incorrect password" then
        (("", some (.msg "sudo: incorrect password provided")), ev)
      else if stringsContains outputStr "is not in the sudoers file" then
        (("", some (.msg "sudo: user is not in the sudoers file")), ev)
      else
        ((outputStr, none), ev)

/-- Models the legacy `UnixHost.runRemoteCommand` (host.go lines
471-545).  The SSH config is resolved and the dial (fixed 15-minute
timeout) and session creation are performed first; only then, on the
sudo branch, is the empty sudo password rejected. -/
def runRemoteCommand (h : UnixHost) (env : HostRemoteEnv)
    (fileKeys agentKeys : KeysResult) (cmd : String) (useSudo : Bool)
    (sudoPassword : String) : (String × Option GoError) × List Event :=
  if h.sshClientPresent = false then
    (("", some (.msg "SSHClient is not initialized")), [])
  else
    match hostGetSSHConfig h fileKeys agentKeys with
    | .error e => (("", some e), [])
    | .ok _config =>
      let timeout := fifteenMinutes
      let ev1 := [Event.dialAttempt (h.Hostname ++ ":22") timeout]
      match env.dial with
      | some e => (("", some e), ev1)
      | none =>
        let ev2 := ev1 ++ [Event.newSession]
        match env.newSession with
        | some e => (("", some e), ev2)
        | none =>
          if useSudo then
            if sudoPassword = "" then
              (("", some (.msg "sudo: password is required but not provided")), ev2)
            else
              hostRemoteRun env ("sudo -S " ++ cmd) (sudoPassword ++ "\n") ev2
          else
            hostRemoteRun env cmd "" ev2

/-- Models `UnixHost.runCommandInternal` (host.go lines 422-428), the
body of `UnixHost.RunCommand`: the local-vs-remote branch of the legacy
path. -/
def runCommandInternal (h : UnixHost) (exec : SpawnedProcess → LocalOutcome)
    (env : HostRemoteEnv) (fileKeys agentKeys : KeysResult) (cmd : String)
    (useSudo : Bool) (sudoPassword : String) :
    (String × Option GoError) × List Event :=
  if h.isLocal then
    runLocalCommand h exec cmd useSudo sudoPassword
  else
    runRemoteCommand h env fileKeys agentKeys cmd useSudo sudoPassword

/-- One candidate key file for `FileSSHKeyManager.ReadPrivateKeys`: its
path, the outcome of `os.ReadFile`, and the outcomes of parsing it with
the passphrase of this call (`ssh.ParsePrivateKeyWithPassphrase`) and
without (`ssh.ParsePrivateKey`) — `none` means the parse failed. -/
structure KeyFile where
  name : String
  readErr : Option GoError
  parseWithPass : Option Signer
  parsePlain : Option Signer

/-- The loop of `FileSSHKeyManager.ReadPrivateKeys` (part_026 lines
168-206 of the second iteration).  Public keys (`.pub` suffix) are
skipped; a read failure returns that error; parse failures just skip the
file.  When the loop ends with zero signers the function executes
`return nil, err` — but the `err` in scope there is the one declared by
the `filepath.Glob` line (the loop re-declares its own `err` with `:=`),
which is nil whenever the loop was reached, so the call returns a nil
error together with no signers. -/
def readKeysLoop (keyPassphrase : String) :
    List KeyFile → List Signer → List Signer × Option GoError
  | [], signers =>
      if signers.length = 0 then ([], none) else (signers, none)
  | f :: rest, signers =>
      if stringsHasSuffix f.name ".pub" then
        readKeysLoop keyPassphrase rest signers
      else
        match f.readErr with
        | some e => ([], some e)
        | none =>
          let parsed := if keyPassphrase ≠ "" then f.parseWithPass else f.parsePlain
          match parsed with
          | none => readKeysLoop keyPassphrase rest signers
          | some signer => readKeysLoop keyPassphrase rest (signers ++ [signer])

/-- Models `FileSSHKeyManager.ReadPrivateKeys` (part_026 lines 159-207).
`globResult` is the outcome of `filepath.Glob(HOME + "/.ssh/id_*")`. -/
def fileReadPrivateKeys (globResult : Except GoError (List KeyFile))
    (keyPassphrase : String) : List Signer × Option GoError :=
  match globResult with
  | .error e => ([], some e)
  | .ok files => readKeysLoop keyPassphrase files []

/-- Models `steelcut.CommandResult` (hostgroup.go lines 39-43), the
per-host slot type of the legacy `RunCommandOnAll`. -/
structure SCCommandResult where
  Result : String
  Error : Option GoError
  Host : String
deriving DecidableEq, Repr

/-- The slot written for one host by `RunCommandOnAll` (hostgroup.go
lines 54-58): the output and error of `h.RunCommand` plus the hostname.
It depends only on that host. -/
def scSlot {α : Type} (hostname : α → String)
    (runCommand : α → String × Option GoError) (h : α) : SCCommandResult :=
  { Result := (runCommand h).1, Error := (runCommand h).2, Host := hostname h }

/-- Models `HostGroup.RunCommandOnAll` (hostgroup.go lines 45-66 of the
steelcut iteration).  `hosts` is the snapshot of the host map taken under
the read lock, in iteration order; every goroutine writes exactly the
slot reserved at its launch index and `wg.Wait()` joins them all, so the
returned list is the per-index image of the snapshot. -/
def RunCommandOnAll {α : Type} (hosts : List α) (hostname : α → String)
    (runCommand : α → String × Option GoError) : List SCCommandResult :=
  hosts.map (scSlot hostname runCommand)

/-- The slot written for one host by the hostgroup-package `Run`
(hostgroup.go lines 128-136): the command-manager result, with the error
message folded into `STDERR` when the run failed, and the dispatched
command recorded.  It depends only on that host. -/
def hgSlot {α : Type} (runCM : α → CommandResult × Option GoError)
    (cmd : String) (h : α) : CommandResult :=
  let r := runCM h
  let result :=
    match r.2 with
    | some e => { r.1 with STDERR := goErrorMessage e }
    | none => r.1
  { result with Command := cmd }

/-- Models `HostGroup.Run` (hostgroup.go lines 114-144 of the hostgroup
iteration).  As with `RunCommandOnAll`, the result slice has one
reserved slot per snapshot host and the function has no error return:
it always yields the joined slots. -/
def hostgroupRun {α : Type} (hosts : List α)
    (runCM : α → CommandResult × Option GoError) (cmd : String) :
    List CommandResult :=
  hosts.map (hgSlot runCM cmd)

/-- Phase of one per-host unit of work inside a dispatch: not yet past
the admission point, currently executing its action, or finished. -/
inductive Phase where
  | pending
  | running
  | done
deriving DecidableEq, Repr

/-- A dispatch state: the phase of every launched unit. -/
abbrev DispatchState := List Phase

/-- Number of units currently executing. -/
def runningCount (s : DispatchState) : Nat :=
  s.countP (fun p => p == Phase.running)

/-- Interleaving semantics of a fan-out dispatch.  `cap = some N` models
`processHosts` (main.go lines 159-195): a unit reaches `running` only by
acquiring a slot of the counting semaphore `sem := make(chan struct{}, N)`
immediately before invoking its action, so the step is guarded by
`runningCount s < N`; the slot is released when the action returns,
successfully or not, which is the `finish` step.  `cap = none` models
`HostGroup.Run` / `RunCommandOnAll` (hostgroup.go), which launch one
goroutine per host with no admission limiter: `start` is unguarded. -/
inductive SemStep (cap : Option Nat) : DispatchState → DispatchState → Prop where
  | start (s : DispatchState) (i : Nat) (hp : s[i]? = some Phase.pending)
      (hcap : ∀ N, cap = some N → runningCount s < N) :
      SemStep cap s (s.set i Phase.running)
  | finish (s : DispatchState) (i : Nat) (hr : s[i]? = some Phase.running) :
      SemStep cap s (s.set i Phase.done)

/-- States reachable during a dispatch. -/
def DispatchReachable (cap : Option Nat) : DispatchState → DispatchState → Prop :=
  Relation.ReflTransGen (SemStep cap)

/-- The initial state of a dispatch over `n` hosts: every unit pending. -/
def initState (n : Nat) : DispatchState :=
  List.replicate n Phase.pending

/-! ## Helper lemmas -/

lemma runningCount_initState (n : Nat) : runningCount (initState n) = 0 := by
  induction n with
  | zero => rfl
  | succ k ih =>
      simp only [initState, List.replicate, runningCount, List.countP_cons] at *
      simp [ih]

lemma runningCount_set_running (s : DispatchState) (i : Nat)
    (h : s[i]? = some Phase.pending) :
    runningCount (s.set i Phase.running) = runningCount s + 1 := by
  induction s generalizing i with
  | nil => simp at h
  | cons a t ih =>
      cases i with
      | zero =>
          rw [List.getElem?_cons_zero] at h
          cases h
          simp [runningCount, List.countP_cons]
      | succ j =>
          rw [List.getElem?_cons_succ] at h
          simp only [List.set, runningCount, List.countP_cons] at *
          rw [ih j h]
          omega

lemma runningCount_set_done (s : DispatchState) (i : Nat)
    (h : s[i]? = some Phase.running) :
    runningCount (s.set i Phase.done) + 1 = runningCount s := by
  induction s generalizing i with
  | nil => simp at h
  | cons a t ih =>
      cases i with
      | zero =>
          rw [List.getElem?_cons_zero] at h
          cases h
          simp [runningCount, List.countP_cons]
      | succ j =>
          rw [List.getElem?_cons_succ] at h
          simp only [List.set, runningCount, List.countP_cons] at *
          rw [← ih j h]
          omega

lemma checkSudoErrors_emptyResult : checkSudoErrors emptyResult = none := by decide

lemma checkSudoErrors_incorrect_password (r : CommandResult)
    (h : stringsContains r.STDERR "incorrect password" = true) :
    checkSudoErrors r = some (.msg "sudo: incorrect password provided") := by
  simp [checkSudoErrors, h]

lemma RunRemote_completed_spec (u : UnixCommandManager) (env : RemoteEnv)
    (fk ak : KeysResult) (deadline : Option Int) (now : Int)
    (config : CommandConfig) (cfg : SSHClientConfig)
    (hp : u.sshClientPresent = true) (hcfg : cmGetSSHConfig u fk ak = .ok cfg)
    (hd : env.dial = none) (hs : env.newSession = none)
    (ht : env.ctxTimedOut = false) :
    (RunRemote u env fk ak deadline now config).1.1.STDOUT = env.runStdout
    ∧ (RunRemote u env fk ak deadline now config).1.1.STDERR = env.runStderr
    ∧ (RunRemote u env fk ak deadline now config).1.1.ExitCode = getExitCode env.runErr
    ∧ (RunRemote u env fk ak deadline now config).1.2
        = checkSudoErrors (RunRemote u env fk ak deadline now config).1.1 := by
  unfold RunRemote
  simp only [hp, hcfg, hd, hs, ht]
  split
  · simp_all
  · split
    · simp_all
    · split <;> simp_all

lemma RunRemote_dial_first (u : UnixCommandManager) (env : RemoteEnv)
    (fk ak : KeysResult) (deadline : Option Int) (now : Int)
    (config : CommandConfig) (cfg : SSHClientConfig)
    (hp : u.sshClientPresent = true) (hcfg : cmGetSSHConfig u fk ak = .ok cfg) :
    (RunRemote u env fk ak deadline now config).2.head?
      = some (Event.dialAttempt (u.Hostname ++ ":22") (dialTimeoutOf deadline now)) := by
  unfold RunRemote
  simp only [hp, hcfg]
  rcases henv : env.dial with _ | e1
  · rcases hns : env.newSession with _ | e2
    · rcases hct : env.ctxTimedOut with _ | _ <;> simp <;> split <;> simp
    · simp
  · simp

lemma RunLocal_result_fields (u : UnixCommandManager)
    (exec : SpawnedProcess → CMLocalOutcome) (start : Int)
    (config : CommandConfig) :
    (RunLocal u exec start config).1.1 =
      { Command := config.Command,
        STDOUT := (exec (cmLocalSpawn u config)).stdout,
        STDERR := (exec (cmLocalSpawn u config)).stderr,
        ExitCode := getExitCode (exec (cmLocalSpawn u config)).err,
        Duration := (exec (cmLocalSpawn u config)).duration,
        Timestamp := start } := by
  simp only [RunLocal]
  split <;> rfl

lemma runLocal_sudo_signature (u : UnixCommandManager)
    (exec : SpawnedProcess → CMLocalOutcome) (start : Int)
    (config : CommandConfig) (e : GoError)
    (h : checkSudoErrors (RunLocal u exec start config).1.1 = some e) :
    (RunLocal u exec start config).1.2 = some e := by
  simp only [RunLocal] at h ⊢
  split at h <;> simp_all

lemma runRemote_sudo_signature (u : UnixCommandManager) (env : RemoteEnv)
    (fk ak : KeysResult) (deadline : Option Int) (now : Int)
    (config : CommandConfig) (e : GoError)
    (h : checkSudoErrors (RunRemote u env fk ak deadline now config).1.1 = some e) :
    (RunRemote u env fk ak deadline now config).1.2 = some e := by
  unfold RunRemote at *
  split at h
  · simp_all [checkSudoErrors_emptyResult]
  · split at h
    · simp_all [checkSudoErrors_emptyResult]
    · split at h
      · simp_all [checkSudoErrors_emptyResult]
      · split at h
        · simp_all [checkSudoErrors_emptyResult]
        · split at h
          · simp_all [checkSudoErrors_emptyResult]
          · dsimp only at h
            split at h <;> simp_all

lemma runRemoteCommand_completed_err (hh : UnixHost) (h2 : HostRemoteEnv)
    (fk ak : KeysResult) (cmd : String) (cfg : SSHClientConfig) (e : GoError)
    (hhp : hh.sshClientPresent = true)
    (hhcfg : hostGetSSHConfig hh fk ak = .ok cfg)
    (h2d : h2.dial = none) (h2s : h2.newSession = none)
    (h2t : h2.timedOut = false) (h2e : h2.runErr = some e) :
    (runRemoteCommand hh h2 fk ak cmd false "").1.1 = h2.combinedOutput
    ∧ (runRemoteCommand hh h2 fk ak cmd false "").1.2 ≠ none := by
  unfold runRemoteCommand hostRemoteRun
  simp only [hhp, hhcfg, h2d, h2s, h2t, h2e]
  cases e <;> simp

/-! ## Claims -/

/-- Claim C1: for every dispatch call on a host group, the returned
result set has exactly one slot per host of the snapshot taken at
dispatch start (its length equals the snapshot size), and slot `i` is a
function of host `i` alone (`hgSlot` resp. `scSlot`), so an error in one
host never empties another host's slot or truncates the result; both
dispatch iterations return a plain slice, so the batch call itself
cannot fail.  Holds for `HostGroup.Run` (hostgroup iteration) and
`HostGroup.RunCommandOnAll` (steelcut iteration). -/
theorem hostgroup_dispatch_one_slot_per_host {α : Type} (hosts : List α)
    (runCM : α → CommandResult × Option GoError) (hostname : α → String)
    (runCommand : α → String × Option GoError) (cmd : String) (i : Nat) :
    (hostgroupRun hosts runCM cmd).length = hosts.length
    ∧ (hostgroupRun hosts runCM cmd)[i]? = hosts[i]?.map (hgSlot runCM cmd)
    ∧ (RunCommandOnAll hosts hostname runCommand).length = hosts.length
    ∧ (RunCommandOnAll hosts hostname runCommand)[i]? =
        hosts[i]?.map (scSlot hostname runCommand) :=
  ⟨List.length_map hosts (hgSlot runCM cmd),
   List.getElem?_map (hgSlot runCM cmd) hosts i,
   List.length_map hosts (scSlot hostname runCommand),
   List.getElem?_map (scSlot hostname runCommand) hosts i⟩

/-- Claim C2 (counterexample): the claim asserts that a sudo request
without a configured sudo password fails without any subprocess or
network activity, in particular with no dial on the remote path.  On the
legacy remote path the dial and session-open happen first: at this
concrete input (remote host, sudo requested, empty sudo password,
successful dial and session) the configuration error is returned, but
the event trace already contains the dial attempt. -/
theorem sudo_without_password_dials_before_failing :
    runCommandInternal
      { HostString := "example.com", User := "root", Password := "pw",
        KeyPassphrase := "", SudoPassword := "", sshClientPresent := true }
      (fun _ => { output := "", err := none })
      { dial := none, newSession := none, combinedOutput := "", runErr := none,
        timedOut := false }
      (.ok []) (.ok []) "ls /root" true ""
    = (("", some (.msg "sudo: password is required but not provided")),
       [Event.dialAttempt "example.com:22" fifteenMinutes, Event.newSession]) := by
  decide

/-- Claim C2 (amended): on the legacy `UnixHost` path, a sudo request
with an empty sudo password returns the configuration error
`sudo: password is required but not provided`; on the local branch this
happens before any subprocess is spawned (empty event trace), while on
the remote branch (SSH client configured, config resolution, dial and
session-open all successful) the same error is returned only after the
dial and session-open have been performed.  (`UnixCommandManager`
performs no such credential check at all.) -/
theorem sudo_without_password_config_error (h : UnixHost)
    (exec : SpawnedProcess → LocalOutcome) (env : HostRemoteEnv)
    (fk ak : KeysResult) (cmd : String) (cfg : SSHClientConfig)
    (hp : h.sshClientPresent = true)
    (hcfg : hostGetSSHConfig h fk ak = .ok cfg)
    (hd : env.dial = none) (hs : env.newSession = none) :
    runLocalCommand h exec cmd true ""
      = (("", some (.msg "sudo: password is required but not provided")), [])
    ∧ runRemoteCommand h env fk ak cmd true ""
      = (("", some (.msg "sudo: password is required but not provided")),
         [Event.dialAttempt (h.Hostname ++ ":22") fifteenMinutes,
          Event.newSession]) := by
  constructor
  · rfl
  · unfold runRemoteCommand
    simp [hp, hcfg, hd, hs]

/-- Claim C2 (witness): the amended statement instantiated at a concrete
remote host with password auth and a successful dial. -/
theorem sudo_without_password_config_error_witness :
    runLocalCommand
      { HostString := "box1", User := "root", Password := "pw",
        KeyPassphrase := "", SudoPassword := "", sshClientPresent := true }
      (fun _ => { output := "", err := none }) "whoami" true ""
      = (("", some (.msg "sudo: password is required but not provided")), [])
    ∧ runRemoteCommand
      { HostString := "box1", User := "root", Password := "pw",
        KeyPassphrase := "", SudoPassword := "", sshClientPresent := true }
      { dial := none, newSession := none, combinedOutput := "", runErr := none,
        timedOut := false }
      (.ok []) (.ok []) "whoami" true ""
      = (("", some (.msg "sudo: password is required but not provided")),
         [Event.dialAttempt "box1:22" fifteenMinutes, Event.newSession]) := by
  have hw := sudo_without_password_config_error
    { HostString := "box1", User := "root", Password := "pw",
      KeyPassphrase := "", SudoPassword := "", sshClientPresent := true }
    (fun _ => { output := "", err := none })
    { dial := none, newSession := none, combinedOutput := "", runErr := none,
      timedOut := false }
    (.ok []) (.ok []) "whoami"
    { User := "root", Auth := [.password "pw"] }
    rfl rfl rfl rfl
  simpa using hw

/-- Claim C3 (counterexample): the claim asserts that a remote execution
completing with a non-zero exit status is surfaced by `Run` as a non-nil
error.  In `UnixCommandManager.RunRemote` the error of `session.Run` is
dropped inside the goroutine: at this concrete input the remote command
exits with status 2 (a remote ssh exit error), yet the call returns a
nil error, and the recorded exit code is 0 because the remote error is
not a local exec exit error. -/
theorem remote_nonzero_exit_returns_nil_error :
    (RunRemote
      { Hostname := "example.com", sshClientPresent := true,
        credentials :=
          { User := "root", Password := "pw", KeyPassphrase := "",
            SudoPassword := "" } }
      { dial := none, newSession := none, runStdout := "out", runStderr := "",
        runErr := some (.sshExit 2), elapsed := 5, ctxTimedOut := false }
      (.ok []) (.ok []) none 0
      { Command := "ls", Args := [], Sudo := false, Env := [] }).1
    = ({ Command := "ls ", STDOUT := "out", STDERR := "", ExitCode := 0,
         Duration := 5, Timestamp := 0 }, none) := by
  decide

/-- Claim C3 (amended): in `UnixCommandManager.RunRemote` a completed
remote execution returns the captured stdout/stderr and
`getExitCode` of the run error in the result, but the returned error is
only the sudo-signature classification of that result — the run error
itself (hence a non-zero exit) is never surfaced, so a nil error does
not imply the remote command exited 0.  In the legacy
`UnixHost.runRemoteCommand`, a completed execution whose run error is
non-nil does surface a non-nil error while still returning the combined
output. -/
theorem remote_exit_surfacing (u : UnixCommandManager) (env : RemoteEnv)
    (fk ak : KeysResult) (deadline : Option Int) (now : Int)
    (config : CommandConfig) (cfg : SSHClientConfig)
    (hh : UnixHost) (h2 : HostRemoteEnv) (cfg2 : SSHClientConfig)
    (cmd : String) (e : GoError)
    (hp : u.sshClientPresent = true) (hcfg : cmGetSSHConfig u fk ak = .ok cfg)
    (hd : env.dial = none) (hs : env.newSession = none)
    (ht : env.ctxTimedOut = false)
    (hhp : hh.sshClientPresent = true)
    (hhcfg : hostGetSSHConfig hh fk ak = .ok cfg2)
    (h2d : h2.dial = none) (h2s : h2.newSession = none)
    (h2t : h2.timedOut = false) (h2e : h2.runErr = some e) :
    ((RunRemote u env fk ak deadline now config).1.1.STDOUT = env.runStdout
     ∧ (RunRemote u env fk ak deadline now config).1.1.STDERR = env.runStderr
     ∧ (RunRemote u env fk ak deadline now config).1.1.ExitCode
         = getExitCode env.runErr
     ∧ (RunRemote u env fk ak deadline now config).1.2
         = checkSudoErrors (RunRemote u env fk ak deadline now config).1.1)
    ∧ ((runRemoteCommand hh h2 fk ak cmd false "").1.1 = h2.combinedOutput
       ∧ (runRemoteCommand hh h2 fk ak cmd false "").1.2 ≠ none) :=
  ⟨RunRemote_completed_spec u env fk ak deadline now config cfg hp hcfg hd hs ht,
   runRemoteCommand_completed_err hh h2 fk ak cmd cfg2 e hhp hhcfg h2d h2s h2t h2e⟩

/-- Claim C3 (witness): the amended statement instantiated with a remote
exit error of status 2 on both paths; the command-manager path yields a
nil error with exit code 0 recorded, the legacy path a non-nil error
with the output preserved. -/
theorem remote_exit_surfacing_witness :
    ((RunRemote
      { Hostname := "box2", sshClientPresent := true,
        credentials :=
          { User := "root", Password := "pw", KeyPassphrase := "",
            SudoPassword := "" } }
      { dial := none, newSession := none, runStdout := "partial", runStderr := "boom",
        runErr := some (.sshExit 2), elapsed := 7, ctxTimedOut := false }
      (.ok []) (.ok []) none 0
      { Command := "ls", Args := [], Sudo := false, Env := [] }).1.1.STDOUT = "partial"
     ∧ (RunRemote
      { Hostname := "box2", sshClientPresent := true,
        credentials :=
          { User := "root", Password := "pw", KeyPassphrase := "",
            SudoPassword := "" } }
      { dial := none, newSession := none, runStdout := "partial", runStderr := "boom",
        runErr := some (.sshExit 2), elapsed := 7, ctxTimedOut := false }
      (.ok []) (.ok []) none 0
      { Command := "ls", Args := [], Sudo := false, Env := [] }).1.2
        = checkSudoErrors (RunRemote
      { Hostname := "box2", sshClientPresent := true,
        credentials :=
          { User := "root", Password := "pw", KeyPassphrase := "",
            SudoPassword := "" } }
      { dial := none, newSession := none, runStdout := "partial", runStderr := "boom",
        runErr := some (.sshExit 2), elapsed := 7, ctxTimedOut := false }
      (.ok []) (.ok []) none 0
      { Command := "ls", Args := [], Sudo := false, Env := [] }).1.1)
    ∧ ((runRemoteCommand
      { HostString := "box3", User := "root", Password := "pw",
        KeyPassphrase := "", SudoPassword := "", sshClientPresent := true }
      { dial := none, newSession := none, combinedOutput := "half-written",
        runErr := some (.sshExit 2), timedOut := false }
      (.ok []) (.ok []) "ls" false "").1.1 = "half-written"
      ∧ (runRemoteCommand
      { HostString := "box3", User := "root", Password := "pw",
        KeyPassphrase := "", SudoPassword := "", sshClientPresent := true }
      { dial := none, newSession := none, combinedOutput := "half-written",
        runErr := some (.sshExit 2), timedOut := false }
      (.ok []) (.ok []) "ls" false "").1.2 ≠ none) := by
  have hw := remote_exit_surfacing
    { Hostname := "box2", sshClientPresent := true,
      credentials :=
        { User := "root", Password := "pw", KeyPassphrase := "",
          SudoPassword := "" } }
    { dial := none, newSession := none, runStdout := "partial", runStderr := "boom",
      runErr := some (.sshExit 2), elapsed := 7, ctxTimedOut := false }
    (.ok []) (.ok []) none 0
    { Command := "ls", Args := [], Sudo := false, Env := [] }
    { User := "root", Auth := [.password "pw", .keyboardInteractive] }
    { HostString := "box3", User := "root", Password := "pw",
      KeyPassphrase := "", SudoPassword := "", sshClientPresent := true }
    { dial := none, newSession := none, combinedOutput := "half-written",
      runErr := some (.sshExit 2), timedOut := false }
    { User := "root", Auth := [.password "pw"] }
    "ls" (.sshExit 2)
    rfl rfl rfl rfl rfl rfl rfl rfl rfl rfl rfl
  exact ⟨⟨hw.1.1, hw.1.2.2.2⟩, hw.2⟩

/-- Claim C4: the claim asserts that the recorded exit code equals the
actual termination status for local and remote commands alike.
`getExitCode` recovers the status only through a type assertion to the
local `*exec.ExitError`; a remote `session.Run` failure is an
`*ssh.ExitError`, so at the failing input (a remote command terminating
with status 3) `RunRemote` records exit code 0 — contradicting the
sentence of the spec, while the call to `getExitCode` on the session
error shows extracting the status was clearly the intent. -/
theorem remote_exit_code_recorded_as_zero :
    (RunRemote
      { Hostname := "example.org", sshClientPresent := true,
        credentials :=
          { User := "admin", Password := "pw", KeyPassphrase := "",
            SudoPassword := "" } }
      { dial := none, newSession := none, runStdout := "", runStderr := "",
        runErr := some (.sshExit 3), elapsed := 1, ctxTimedOut := false }
      (.ok []) (.ok []) none 0
      { Command := "false", Args := [], Sudo := false, Env := [] }).1.1.ExitCode = 0
    ∧ getExitCode (some (.sshExit 3)) = 0
    ∧ getExitCode (some (.execExit 3)) = 3 := by
  decide

/-- Claim C5 (counterexample): the claim asserts the dial timeout is
never zero or negative and that a deadline already in the past yields an
immediate timeout error with no dial attempt.  At this concrete input
(deadline 50, current time 100) `RunRemote` computes the negative dial
timeout -50, performs the dial attempt with it, and returns the dial
error rather than any early timeout error. -/
theorem past_deadline_still_dials :
    dialTimeoutOf (some 50) 100 = -50
    ∧ (RunRemote
      { Hostname := "example.com", sshClientPresent := true,
        credentials :=
          { User := "root", Password := "pw", KeyPassphrase := "",
            SudoPassword := "" } }
      { dial := some (.msg "dial tcp: i/o timeout"), newSession := none,
        runStdout := "", runStderr := "", runErr := none, elapsed := 0,
        ctxTimedOut := false }
      (.ok []) (.ok []) (some 50) 100
      { Command := "ls", Args := [], Sudo := false, Env := [] })
    = ((emptyResult, some (.msg "dial tcp: i/o timeout")),
       [Event.dialAttempt "example.com:22" (-50)]) := by
  constructor
  · decide
  · decide

/-- Claim C5 (amended): the dial timeout of `RunRemote` is the remaining
time to the caller's deadline when one is given — even when that
remaining time is zero or negative — and the 15-minute default
otherwise; whenever the SSH client is initialized and the SSH config
resolves, the dial attempt is performed with exactly that value as the
first effect, with no early timeout error for a deadline already in the
past. -/
theorem dial_timeout_computation (u : UnixCommandManager) (env : RemoteEnv)
    (fk ak : KeysResult) (deadline : Option Int) (d now : Int)
    (config : CommandConfig) (cfg : SSHClientConfig)
    (hp : u.sshClientPresent = true)
    (hcfg : cmGetSSHConfig u fk ak = .ok cfg) :
    dialTimeoutOf (some d) now = d - now
    ∧ dialTimeoutOf none now = fifteenMinutes
    ∧ (RunRemote u env fk ak deadline now config).2.head?
        = some (Event.dialAttempt (u.Hostname ++ ":22")
            (dialTimeoutOf deadline now)) :=
  ⟨rfl, rfl, RunRemote_dial_first u env fk ak deadline now config cfg hp hcfg⟩

/-- Claim C5 (witness): the amended statement instantiated at a past
deadline (deadline 50, now 100): the computed timeout is negative and
the dial attempt is still the first effect. -/
theorem dial_timeout_computation_witness :
    dialTimeoutOf (some 50) 100 = 50 - 100
    ∧ dialTimeoutOf none 100 = fifteenMinutes
    ∧ (RunRemote
      { Hostname := "box4", sshClientPresent := true,
        credentials :=
          { User := "root", Password := "pw", KeyPassphrase := "",
            SudoPassword := "" } }
      { dial := some (.msg "dial tcp: i/o timeout"), newSession := none,
        runStdout := "", runStderr := "", runErr := none, elapsed := 0,
        ctxTimedOut := false }
      (.ok []) (.ok []) (some 50) 100
      { Command := "ls", Args := [], Sudo := false, Env := [] }).2.head?
        = some (Event.dialAttempt "box4:22" (dialTimeoutOf (some 50) 100)) := by
  have hw := dial_timeout_computation
    { Hostname := "box4", sshClientPresent := true,
      credentials :=
        { User := "root", Password := "pw", KeyPassphrase := "",
          SudoPassword := "" } }
    { dial := some (.msg "dial tcp: i/o timeout"), newSession := none,
      runStdout := "", runStderr := "", runErr := none, elapsed := 0,
      ctxTimedOut := false }
    (.ok []) (.ok []) (some 50) 50 100
    { Command := "ls", Args := [], Sudo := false, Env := [] }
    { User := "root", Auth := [.password "pw", .keyboardInteractive] }
    rfl rfl
  exact ⟨hw.1, hw.2.1, hw.2.2⟩

/-- Claim C6 (counterexample): the claim asserts that a
keyboard-interactive responder is attached to the resolved auth method
list in every case.  The legacy `UnixHost.getSSHConfig` resolves exactly
one auth method: at this concrete credential bundle (password
configured) the resolved list is the password method alone, with no
keyboard-interactive entry. -/
theorem legacy_resolver_lacks_keyboard_interactive :
    hostGetSSHConfig
      { HostString := "box5", User := "root", Password := "pw",
        KeyPassphrase := "", SudoPassword := "", sshClientPresent := true }
      (.ok []) (.ok [])
    = .ok { User := "root", Auth := [.password "pw"] }
    ∧ [AuthMethod.password "pw"].any AuthMethod.isKeyboardInteractive = false := by
  exact ⟨rfl, by decide⟩

/-- Claim C6 (amended): in the command-manager resolver
(`UnixCommandManager.getSSHConfig`) password authentication is chosen
exactly when a password is configured, otherwise public-key
authentication sourcing signers from the file-based key manager when a
key passphrase is configured and from the agent otherwise, and the
keyboard-interactive responder — which answers every server challenge
with an empty response — is appended in each of these cases.  The legacy
`UnixHost.getSSHConfig` registers only the single password or public-key
method, with no keyboard-interactive fallback. -/
theorem auth_resolution_order (c : UnixCommandManager)
    (fk ak : KeysResult) (keys : List Signer)
    (usr ins : String) (qs : List String) (es : List Bool) :
    (c.credentials.Password ≠ "" →
      cmGetSSHConfig c fk ak
        = .ok { User := c.credentials.User,
                Auth := [.password c.credentials.Password,
                         .keyboardInteractive] })
    ∧ (c.credentials.Password = "" → c.credentials.KeyPassphrase ≠ "" →
        fk = .ok keys →
        cmGetSSHConfig c fk ak
          = .ok { User := c.credentials.User,
                  Auth := [.publicKeys keys, .keyboardInteractive] })
    ∧ (c.credentials.Password = "" → c.credentials.KeyPassphrase = "" →
        ak = .ok keys →
        cmGetSSHConfig c fk ak
          = .ok { User := c.credentials.User,
                  Auth := [.publicKeys keys, .keyboardInteractive] })
    ∧ handleKeyboardInteractive usr ins qs es = List.replicate qs.length "" := by
  refine ⟨?_, ?_, ?_, rfl⟩
  · intro hpw
    simp [cmGetSSHConfig, hpw]
  · intro hpw hkp hfk
    simp [cmGetSSHConfig, hpw, hkp, hfk]
  · intro hpw hkp hak
    simp [cmGetSSHConfig, hpw, hkp, hak]

/-- Claim C6 (witness): the amended statement instantiated at a
passwordless bundle with a key passphrase (file-manager sourcing) and a
two-question challenge. -/
theorem auth_resolution_order_witness :
    cmGetSSHConfig
      { Hostname := "box6", sshClientPresent := true,
        credentials :=
          { User := "op", Password := "", KeyPassphrase := "phrase",
            SudoPassword := "" } }
      (.ok [{ id := 7 }]) (.error (.msg "SSH_AUTH_SOCK not set"))
      = .ok { User := "op",
              Auth := [.publicKeys [{ id := 7 }], .keyboardInteractive] }
    ∧ handleKeyboardInteractive "op" "" ["Password:", "OTP:"] [false, false]
      = ["", ""] := by
  have hw := auth_resolution_order
    { Hostname := "box6", sshClientPresent := true,
      credentials :=
        { User := "op", Password := "", KeyPassphrase := "phrase",
          SudoPassword := "" } }
    (.ok [{ id := 7 }]) (.error (.msg "SSH_AUTH_SOCK not set"))
    [{ id := 7 }] "op" "" ["Password:", "OTP:"] [false, false]
  exact ⟨hw.2.1 rfl (by decide) rfl, by simpa using hw.2.2.2⟩

/-- Claim C7: the claim asserts that `FileSSHKeyManager.ReadPrivateKeys`
returns a non-nil error whenever it yields zero usable signers.  The
final `return nil, err` of the function returns the `err` declared at
the `filepath.Glob` line — the loop re-declares its own `err` with `:=`
— which is nil whenever the loop was reached, so a run that parses no
key file returns zero signers together with a nil error, both when every
candidate file fails to parse and when there are no candidate files at
all.  The comment above that return ("We didn't manage to parse any key
files") shows a hard failure was the intent. -/
theorem zero_signers_nil_error :
    fileReadPrivateKeys
      (.ok [{ name := "/home/op/.ssh/id_rsa", readErr := none,
              parseWithPass := none, parsePlain := none },
            { name := "/home/op/.ssh/id_rsa.pub", readErr := none,
              parseWithPass := none, parsePlain := none }]) ""
      = ([], none)
    ∧ fileReadPrivateKeys (.ok []) "phrase" = ([], none) := by
  exact ⟨by decide, by decide⟩

/-- Claim C8 (counterexample): the claim asserts that captured output
containing "incorrect password" makes `Run` return the
incorrect-password error kind even at exit code 0.  `checkSudoErrors`
inspects `STDERR` only: at this concrete input the phrase appears in the
captured `STDOUT`, the exit code is 0, and `Run` returns a nil error
instead of the incorrect-password error. -/
theorem stdout_incorrect_password_not_classified :
    (Run
      { Hostname := "localhost", sshClientPresent := false,
        credentials :=
          { User := "root", Password := "", KeyPassphrase := "",
            SudoPassword := "" } }
      (fun _ =>
        { stdout := "incorrect password", stderr := "", err := none,
          duration := 1 })
      { dial := none, newSession := none, runStdout := "", runStderr := "",
        runErr := none, elapsed := 0, ctxTimedOut := false }
      (.ok []) (.ok []) none 0
      { Command := "check", Args := [], Sudo := false, Env := [] }).1
    = ({ Command := "check", STDOUT := "incorrect password", STDERR := "",
         ExitCode := 0, Duration := 1, Timestamp := 0 }, none) := by
  decide

/-- Claim C8 (amended): when the captured standard error of a run
contains the literal substring "incorrect password", both `RunLocal` and
the completed path of `RunRemote` return the privilege-elevation
incorrect-password error — whatever the run error and exit code were, in
particular at exit code 0 — because that signature is the first one
`checkSudoErrors` tests.  Output-based classification takes precedence
over exit-code classification, but only standard error is inspected. -/
theorem stderr_incorrect_password_classified (u : UnixCommandManager)
    (exec : SpawnedProcess → CMLocalOutcome) (start : Int)
    (env : RemoteEnv) (fk ak : KeysResult) (deadline : Option Int)
    (now : Int) (config : CommandConfig) (cfg : SSHClientConfig)
    (hl : stringsContains (exec (cmLocalSpawn u config)).stderr
        "incorrect password" = true)
    (hp : u.sshClientPresent = true)
    (hcfg : cmGetSSHConfig u fk ak = .ok cfg)
    (hd : env.dial = none) (hs : env.newSession = none)
    (ht : env.ctxTimedOut = false)
    (hr : stringsContains env.runStderr "incorrect password" = true) :
    (RunLocal u exec start config).1.2
      = some (.msg "sudo: incorrect password provided")
    ∧ (RunRemote u env fk ak deadline now config).1.2
      = some (.msg "sudo: incorrect password provided") := by
  constructor
  · apply runLocal_sudo_signature
    rw [RunLocal_result_fields]
    exact checkSudoErrors_incorrect_password _ hl
  · obtain ⟨_, h2, _, h4⟩ :=
      RunRemote_completed_spec u env fk ak deadline now config cfg hp hcfg hd hs ht
    rw [h4]
    apply checkSudoErrors_incorrect_password
    rw [h2]
    exact hr

/-- Claim C8 (witness): the amended statement instantiated with runs
whose stderr is exactly "incorrect password" and whose run error is nil
(exit code 0 recorded on both paths). -/
theorem stderr_incorrect_password_classified_witness :
    (RunLocal
      { Hostname := "localhost", sshClientPresent := true,
        credentials :=
          { User := "root", Password := "pw", KeyPassphrase := "",
            SudoPassword := "s3cr3t" } }
      (fun _ =>
        { stdout := "", stderr := "incorrect password", err := none,
          duration := 2 }) 0
      { Command := "id", Args := [], Sudo := false, Env := [] }).1.2
      = some (.msg "sudo: incorrect password provided")
    ∧ (RunRemote
      { Hostname := "localhost", sshClientPresent := true,
        credentials :=
          { User := "root", Password := "pw", KeyPassphrase := "",
            SudoPassword := "s3cr3t" } }
      { dial := none, newSession := none, runStdout := "",
        runStderr := "incorrect password", runErr := none, elapsed := 0,
        ctxTimedOut := false }
      (.ok []) (.ok []) none 0
      { Command := "id", Args := [], Sudo := false, Env := [] }).1.2
      = some (.msg "sudo: incorrect password provided") :=
  stderr_incorrect_password_classified
    { Hostname := "localhost", sshClientPresent := true,
      credentials :=
        { User := "root", Password := "pw", KeyPassphrase := "",
          SudoPassword := "s3cr3t" } }
    (fun _ =>
      { stdout := "", stderr := "incorrect password", err := none,
        duration := 2 }) 0
    { dial := none, newSession := none, runStdout := "",
      runStderr := "incorrect password", runErr := none, elapsed := 0,
      ctxTimedOut := false }
    (.ok []) (.ok []) none 0
    { Command := "id", Args := [], Sudo := false, Env := [] }
    { User := "root", Auth := [.password "pw", .keyboardInteractive] }
    (by decide) rfl rfl rfl rfl rfl (by decide)

/-- Claim C10: sudo-signature classification is applied to every
command result regardless of the `Sudo` flag — `config` (and with it
`config.Sudo`) is arbitrary here: whenever the stderr of the result
returned by `Run` matches one of the seven known signatures (so
`checkSudoErrors` classifies it as some privilege-elevation error), that
error is what `Run` returns, in place of the underlying execution error;
and a stderr containing "Permission denied" always yields such a
classification. -/
theorem sudo_classification_regardless_of_flag (u : UnixCommandManager)
    (exec : SpawnedProcess → CMLocalOutcome) (env : RemoteEnv)
    (fk ak : KeysResult) (deadline : Option Int) (now : Int)
    (config : CommandConfig) (e : GoError) (r : CommandResult) :
    (checkSudoErrors (Run u exec env fk ak deadline now config).1.1 = some e →
      (Run u exec env fk ak deadline now config).1.2 = some e)
    ∧ (stringsContains r.STDERR "Permission denied" = true →
        (checkSudoErrors r).isSome = true) := by
  constructor
  · intro h
    cases hl : u.isLocal with
    | true =>
        simp only [Run, hl, if_true] at h ⊢
        exact runLocal_sudo_signature u exec now config e h
    | false =>
        simp only [Run, hl] at h ⊢
        simp only [Bool.false_eq_true, if_false] at h ⊢
        exact runRemote_sudo_signature u env fk ak deadline now config e h
  · intro hpd
    simp only [checkSudoErrors]
    split_ifs <;> simp_all

/-- Claim C10 (witness): a `Sudo := false` local run whose child exits 1
with "Permission denied" on stderr: the returned error is the
permission-denied classification, in place of the exec exit error. -/
theorem sudo_classification_regardless_of_flag_witness :
    (Run
      { Hostname := "localhost", sshClientPresent := false,
        credentials :=
          { User := "root", Password := "", KeyPassphrase := "",
            SudoPassword := "" } }
      (fun _ =>
        { stdout := "", stderr := "cat: /etc/shadow: Permission denied",
          err := some (.execExit 1), duration := 3 })
      { dial := none, newSession := none, runStdout := "", runStderr := "",
        runErr := none, elapsed := 0, ctxTimedOut := false }
      (.ok []) (.ok []) none 0
      { Command := "cat", Args := ["/etc/shadow"], Sudo := false,
        Env := [] }).1.2
    = some (.msg "permission denied: consider using sudo for this command")
    ∧ (checkSudoErrors
        { Command := "cat", STDOUT := "",
          STDERR := "cat: /etc/shadow: Permission denied", ExitCode := 1,
          Duration := 3, Timestamp := 0 }).isSome = true := by
  have hw := sudo_classification_regardless_of_flag
    { Hostname := "localhost", sshClientPresent := false,
      credentials :=
        { User := "root", Password := "", KeyPassphrase := "",
          SudoPassword := "" } }
    (fun _ =>
      { stdout := "", stderr := "cat: /etc/shadow: Permission denied",
        err := some (.execExit 1), duration := 3 })
    { dial := none, newSession := none, runStdout := "", runStderr := "",
      runErr := none, elapsed := 0, ctxTimedOut := false }
    (.ok []) (.ok []) none 0
    { Command := "cat", Args := ["/etc/shadow"], Sudo := false, Env := [] }
    (.msg "permission denied: consider using sudo for this command")
    { Command := "cat", STDOUT := "",
      STDERR := "cat: /etc/shadow: Permission denied", ExitCode := 1,
      Duration := 3, Timestamp := 0 }
  exact ⟨hw.1 (by decide), hw.2 (by decide)⟩

/-- Claim C9 (counterexample): the claim asserts a bound of `N`
simultaneous executions for every dispatch over the host group, but the
`HostGroup` dispatchers launch one goroutine per host with no admission
limiter (`SemStep none`): from a two-host dispatch the state with both
units executing at once is reachable, exceeding the limit `N = 1`. -/
theorem hostgroup_dispatch_unbounded :
    DispatchReachable none (initState 2) [Phase.running, Phase.running]
    ∧ 1 < runningCount [Phase.running, Phase.running] := by
  constructor
  · have h1 : SemStep none (initState 2) [Phase.running, Phase.pending] :=
      SemStep.start (initState 2) 0 (by decide)
        (fun N hN => Option.noConfusion hN)
    have h2 : SemStep none [Phase.running, Phase.pending]
        [Phase.running, Phase.running] :=
      SemStep.start [Phase.running, Phase.pending] 1 (by decide)
        (fun N hN => Option.noConfusion hN)
    exact Relation.ReflTransGen.tail (Relation.ReflTransGen.single h1) h2
  · decide

/-- Claim C9 (amended): in `main.processHosts`, whose per-host units
acquire a slot of the counting semaphore of capacity `N` immediately
before invoking the action and release it on completion regardless of
outcome, no reachable dispatch state has more than `N` units executing
simultaneously.  (The `HostGroup` dispatchers have no such limiter.) -/
theorem processHosts_bounded_concurrency (N n : Nat) (s : DispatchState)
    (h : DispatchReachable (some N) (initState n) s) :
    runningCount s ≤ N := by
  unfold DispatchReachable at h
  induction h with
  | refl => rw [runningCount_initState]; exact Nat.zero_le N
  | tail hreach hstep ih =>
      cases hstep with
      | start i hp hcap =>
          rw [runningCount_set_running _ i hp]
          exact hcap N rfl
      | finish i hr =>
          have hd := runningCount_set_done _ i hr
          omega

/-- Claim C9 (witness): the bound instantiated at `N = 1` over a
two-host dispatch, after the reachable step that starts the first
unit. -/
theorem processHosts_bounded_concurrency_witness :
    runningCount [Phase.running, Phase.pending] ≤ 1 :=
  processHosts_bounded_concurrency 1 2 [Phase.running, Phase.pending]
    (Relation.ReflTransGen.single
      (SemStep.start (initState 2) 0 (by decide)
        (fun N hN => by cases hN; decide)))

end Steelcut
